import Mathlib

/-!
Shallow embedding of the session/authentication core of the repository
(a React single-page application):

* `login`, `validateAuth`, `logout` — the session-store operations of
  `AuthProvider` (src/frontend/src/App.tsx, lines 96-137).
* `guardTrace` — the `RouteGuard` component's state history for one mount
  (src/unnamed/part_001, lines 149-180).
* the `Toast` notification widget with its `useEffect`/`setTimeout`
  auto-dismiss logic and its `aria-live` attribute
  (src/unnamed/part_001, lines 42-118).

Modelling conventions:

* `localStorage` holds at most the single key "jwt"; it is the
  `storedJwt : Option String` field of `AuthState`.
* The external `jwtDecode` library function is an opaque dependency of the
  code, so the operations are parameterised by a codec
  `decode : String → Option Claims`; `none` models the `InvalidTokenError`
  exception `jwtDecode` throws on a malformed token.  A JWT must consist
  of three dot-separated segments, so `jwtDecode("")` always throws; the
  `Codec` structure records this library invariant (`empty_undecodable`)
  alongside the function.  A concrete codec `decodeEx` is supplied for
  evaluating the model on closed inputs.
* `validateAuth` reads the slot with `localStorage.getItem("jwt")`, which
  returns `null` when absent, and guards on `if (jwt)`: that test is falsy
  exactly for `null` and for the empty string, so a stored `""` makes the
  function return `false` without ever calling `jwtDecode`.
* A JavaScript exception that escapes an operation is an
  `Except.error .malformed` result; because `localStorage` mutations made
  before the throw survive it, every operation returns the post-state
  even when it ends in an error.
* Each `setUser` call is recorded in a `List User` of subscriber
  notifications: `setUser` is always given a freshly constructed object, so
  React never bails out of the update and every call re-renders the
  provider, notifying all context consumers.
* `Date.now()` is a parameter `now : Nat` (epoch milliseconds); the `exp`
  claim is in epoch seconds, as in JWT, and the code compares
  `exp * 1000 > now`.
-/

namespace DiscordPython

/-- Decoded JWT claim set: `{ exp: number; sub: string }` as destructured
from `jwtDecode` in App.tsx lines 98 and 115.  `exp` is in epoch seconds. -/
structure Claims where
  exp : Nat
  sub : String
deriving DecidableEq

/-- The external `jwtDecode` dependency: `none` models the exception thrown
on a token that cannot be decoded.  `empty_undecodable` is a fact of the
jwt-decode library: a JWT is three dot-separated segments, so the empty
string is never decodable — `jwtDecode("")` unconditionally throws. -/
structure Codec where
  decode : String → Option Claims
  empty_undecodable : decode "" = none

instance : CoeFun Codec (fun _ => String → Option Claims) :=
  ⟨Codec.decode⟩

/-- The in-memory session value: `interface User { userID: string | null }`
(App.tsx lines 23-25). -/
structure User where
  userID : Option String
deriving DecidableEq

/-- Combined mutable state of the auth core: the persistent credential
store (the `localStorage` slot under key "jwt") and the in-memory `user`
React state of `AuthProvider`. -/
structure AuthState where
  storedJwt : Option String
  user : User
deriving DecidableEq

/-- The error a session operation can end in: `jwtDecode` threw on a
malformed credential (the spec's `MalformedCredential`). -/
inductive JwtError
  | malformed
deriving DecidableEq

/-- `login` (App.tsx lines 96-100):

    localStorage.setItem("jwt", jwt);
    const decodedToken: { exp: number; sub: string } = jwtDecode(jwt);
    setUser({ userID: decodedToken.sub });

The `setItem` happens before `jwtDecode`, so when decoding throws the
store already holds the new raw string.  Returns the post-state, the
`setUser` notifications, and `ok`/`error`. -/
def login (decode : Codec) (jwt : String) (s : AuthState) :
    AuthState × List User × Except JwtError Unit :=
  let s1 : AuthState := { s with storedJwt := some jwt }
  match decode jwt with
  | none => (s1, [], .error .malformed)
  | some tk =>
      let u : User := { userID := some tk.sub }
      ({ s1 with user := u }, [u], .ok ())

/-- `validateAuth` (App.tsx lines 112-126):

    const jwt = localStorage.getItem("jwt");
    if (jwt) {
      const decodedToken: { exp: number; sub: string } = jwtDecode(jwt);
      if (decodedToken.exp * 1000 > Date.now()) {
        setUser({ userID: decodedToken.sub });
        return true;
      }
      localStorage.removeItem("jwt");
      setUser({ userID: null });
      return false;
    }
    return false;

`getItem` yields `null` when the key is absent, and `if (jwt)` is falsy
both for `null` and for a stored empty string, so in those two cases the
function falls through to the final `return false` without decoding.
Otherwise there is no try/catch: a stored token that `jwtDecode` rejects
makes the promise reject, leaving state untouched. -/
def validateAuth (decode : Codec) (now : Nat) (s : AuthState) :
    AuthState × List User × Except JwtError Bool :=
  match s.storedJwt with
  | some jwt =>
      if jwt = "" then (s, [], .ok false)
      else
        match decode jwt with
        | none => (s, [], .error .malformed)
        | some tk =>
            if tk.exp * 1000 > now then
              let u : User := { userID := some tk.sub }
              ({ s with user := u }, [u], .ok true)
            else
              (⟨none, ⟨none⟩⟩, [⟨none⟩], .ok false)
  | none => (s, [], .ok false)

/-- `logout` (App.tsx lines 134-137):

    localStorage.removeItem("jwt");
    setUser({ userID: null });

Total: neither call can throw, whatever the current state. -/
def logout (s : AuthState) : AuthState × List User :=
  let _ := s
  (⟨none, ⟨none⟩⟩, [⟨none⟩])

/-- The three rendering states of `RouteGuard` (part_001 lines 149-180):
`pending` is `authState.loading = true`, the two resolved states are
`loading = false` with `authenticated` true/false. -/
inductive GuardState
  | pending
  | authorized
  | unauthorized
deriving DecidableEq

/-- The sequence of distinct `authState` values a single `RouteGuard`
mount goes through (part_001 lines 149-180).  The guard starts at
`{loading: true, authenticated: false}`; the mount-only `useEffect` runs
`checkAuth` once, which awaits `validateAuth()` and calls `setAuthState`
exactly once with the resolved state.  When `validateAuth` rejects (stored
token undecodable), the `await` throws out of `checkAuth` and
`setAuthState` is never called, so the guard never leaves `pending`. -/
def guardTrace (decode : Codec) (now : Nat) (s : AuthState) : List GuardState :=
  match (validateAuth decode now s).2.2 with
  | .ok true => [.pending, .authorized]
  | .ok false => [.pending, .unauthorized]
  | .error _ => [.pending]

/-- Concrete codec standing in for `jwtDecode`, used to run the model on
closed inputs: two well-formed tokens, everything else malformed. -/
def decodeEx : Codec where
  decode raw :=
    if raw = "tok.alice.9" then some ⟨9, "alice"⟩
    else if raw = "tok.bob.1" then some ⟨1, "bob"⟩
    else none
  empty_undecodable := by decide

/-- Combined state of the `Toast` widget (part_001 lines 42-118) together
with the owning parent component that holds the props it is rendered with.
`visible`, `message`, `colour`, `duration` are the parent's current
`show` / `message` / `colour` / `autoCloseDuration` props; `prevShowDep`
is the value of the effect's dependency array `[show]` the last time the
effect ran; `timer` is the pending `setTimeout`'s fire time; `hideEvents`
counts transitions of `show` from true to false. -/
structure NotifSys where
  visible : Bool
  message : String
  colour : String
  duration : Option Nat
  prevShowDep : Option Bool
  timer : Option Nat
  hideEvents : Nat
deriving DecidableEq

/-- The `useEffect` of `Toast` (part_001 lines 54-67) as it behaves on a
render at time `t`.  Its dependency array is `[show]`, so the effect body
(and the cleanup of the previous run) execute only when the `show` prop
differs from the value at the previous run; the cleanup clears the pending
timeout; the body schedules `onClose` after `autoCloseDuration` when
`show && autoCloseDuration` is truthy (a duration of 0 is falsy in JS). -/
def toastEffect (t : Nat) (s : NotifSys) : NotifSys :=
  if s.prevShowDep = some s.visible then s
  else
    let s1 : NotifSys := { s with timer := none, prevShowDep := some s.visible }
    match s.duration with
    | some d => if s.visible && d != 0 then { s1 with timer := some (t + d) } else s1
    | none => s1

/-- The parent showing a notification at time `t`: it renders `Toast` with
`show = true` and the new message / colour / duration, after which the
effect phase runs. -/
def showToast (t : Nat) (msg colour : String) (d : Option Nat) (s : NotifSys) :
    NotifSys :=
  toastEffect t { s with visible := true, message := msg, colour := colour,
                         duration := d }

/-- The `onClose` path (manual close button or the timeout callback): the
parent sets `show = false`, `Toast` re-renders and its effect phase runs. -/
def closeToast (t : Nat) (s : NotifSys) : NotifSys :=
  let hides := if s.visible then s.hideEvents + 1 else s.hideEvents
  toastEffect t { s with visible := false, hideEvents := hides }

/-- One instant of the timer service: if the pending timeout fires at `t`,
it is consumed and its callback `onClose` runs. -/
def tickFire (t : Nat) (s : NotifSys) : NotifSys :=
  match s.timer with
  | some f => if f = t then closeToast t { s with timer := none } else s
  | none => s

/-- The widget as first mounted: rendered hidden, after which the mount
effect runs (at time 0). -/
def initNotif : NotifSys :=
  toastEffect 0 ⟨false, "", "", none, none, none, 0⟩

/-- Drive the system from `initNotif` through instants `0..tEnd`: at each
instant the parent's `show` calls scheduled for that instant run first,
then the timer service fires any timeout due at that instant.  An event
`(t, msg, colour, d)` is a `show(msg, colour, d)` call at time `t`. -/
def runNotif (events : List (Nat × String × String × Option Nat))
    (tEnd : Nat) : NotifSys :=
  (List.range (tEnd + 1)).foldl
    (fun s t =>
      let s2 := (events.filter (fun e => e.1 = t)).foldl
        (fun s e => showToast t e.2.1 e.2.2.1 e.2.2.2 s) s
      tickFire t s2)
    initNotif

/-- The replacement scenario of the spec (§8): `show("A", "info", 100ms)`
at t = 0, then `show("B", "error", 200ms)` at t = 50, before the first
auto-dismiss deadline. -/
def replaceEvents : List (Nat × String × String × Option Nat) :=
  [(0, "A", "info", some 100), (50, "B", "error", some 200)]

/-- A JavaScript value as far as truthiness is concerned: a boolean or a
string (a string is truthy iff non-empty). -/
inductive JsVal
  | bool (b : Bool)
  | str (s : String)

/-- JavaScript truthiness for `JsVal`. -/
def truthy : JsVal → Bool
  | .bool b => b
  | .str s => s ≠ ""

/-- JavaScript `||`: returns the left operand when truthy, else the right. -/
def jsOr (a b : JsVal) : JsVal :=
  if truthy a then a else b

/-- The `aria-live` attribute computed for a visible toast (part_001 line
101), exactly as written:

    aria-live={colour === "error" || "warning" ? "assertive" : "polite"}

`===` binds tighter than `||`, which binds tighter than `?:`, so the
condition is `(colour === "error") || "warning"`. -/
def ariaLive (colour : String) : String :=
  if truthy (jsOr (.bool (colour = "error")) (.str "warning"))
  then "assertive" else "polite"

/-- The accessibility contract as the spec states it (§4.4), for
comparison: error/warning assertive, success/info polite. -/
def ariaLiveSpec (colour : String) : String :=
  if colour = "error" ∨ colour = "warning" then "assertive" else "polite"

/-! Helper lemmas shared by several claims. -/

/-- `validateAuth` on an empty store takes the final `return false` path. -/
theorem validateAuth_empty (decode : Codec) (now : Nat) (u : User) :
    validateAuth decode now ⟨none, u⟩ = (⟨none, u⟩, [], .ok false) := by
  simp [validateAuth]

/-- `validateAuth` on a stored empty string: `if (jwt)` is falsy for "",
so the function returns `false` without decoding, purging or notifying. -/
theorem validateAuth_falsy (decode : Codec) (now : Nat) (u : User) :
    validateAuth decode now ⟨some "", u⟩ = (⟨some "", u⟩, [], .ok false) := by
  simp [validateAuth]

/-- A token the codec decodes is never the empty string: `jwtDecode("")`
always throws. -/
theorem decodable_ne_empty (decode : Codec) (jwt : String) (tk : Claims)
    (h : decode jwt = some tk) : jwt ≠ "" := by
  intro he
  subst he
  rw [decode.empty_undecodable] at h
  exact Option.noConfusion h

/-- `validateAuth` on a stored non-empty token that `jwtDecode` rejects
lets the exception escape, touching nothing. -/
theorem validateAuth_malformed (decode : Codec) (now : Nat) (u : User)
    (jwt : String) (h : decode jwt = none) (hne : jwt ≠ "") :
    validateAuth decode now ⟨some jwt, u⟩ = (⟨some jwt, u⟩, [], .error .malformed) := by
  simp [validateAuth, h, hne]

/-- `validateAuth` on a stored decodable fresh token refreshes the session. -/
theorem validateAuth_fresh (decode : Codec) (now : Nat) (u : User)
    (jwt : String) (tk : Claims) (h1 : decode jwt = some tk)
    (h2 : tk.exp * 1000 > now) :
    validateAuth decode now ⟨some jwt, u⟩ =
      (⟨some jwt, ⟨some tk.sub⟩⟩, [⟨some tk.sub⟩], .ok true) := by
  have hne : jwt ≠ "" := decodable_ne_empty decode jwt tk h1
  simp [validateAuth, h1, h2, hne]

/-- `validateAuth` on a stored decodable expired token purges. -/
theorem validateAuth_expired (decode : Codec) (now : Nat) (u : User)
    (jwt : String) (tk : Claims) (h1 : decode jwt = some tk)
    (h2 : tk.exp * 1000 ≤ now) :
    validateAuth decode now ⟨some jwt, u⟩ = (⟨none, ⟨none⟩⟩, [⟨none⟩], .ok false) := by
  have hne : jwt ≠ "" := decodable_ne_empty decode jwt tk h1
  have h3 : ¬ tk.exp * 1000 > now := Nat.not_lt.mpr h2
  simp [validateAuth, h1, h3, hne]

/-! Claim C1 — login on an undecodable token. -/

/-- Claim C1 is false on the code: with a previously stored valid
credential for "alice", `login("bad")` does fail with the decode error and
leaves the in-memory Session untouched, but the persistent store has
already been overwritten with the malformed string — `setItem` runs before
`jwtDecode`, so the previously stored credential is lost. -/
theorem login_malformed_cex :
    (login decodeEx "bad" ⟨some "tok.alice.9", ⟨some "alice"⟩⟩).2.2
        = .error .malformed ∧
    (login decodeEx "bad" ⟨some "tok.alice.9", ⟨some "alice"⟩⟩).1.storedJwt
        = some "bad" ∧
    (login decodeEx "bad" ⟨some "tok.alice.9", ⟨some "alice"⟩⟩).1.storedJwt
        ≠ some "tok.alice.9" :=
  ⟨rfl, rfl, by decide⟩

/-- Claim C1 amended: for every raw token the codec cannot decode, `login`
fails with `MalformedCredential`, leaves the in-memory Session unchanged
and notifies no subscriber, but it first overwrites the persistent
credential store with the malformed raw string (the store write precedes
the decode, so a previously stored credential is clobbered). -/
theorem login_malformed_amended (decode : Codec) (jwt : String)
    (s : AuthState) (h : decode jwt = none) :
    login decode jwt s = ({ s with storedJwt := some jwt }, [], .error .malformed) := by
  simp [login, h]

/-- Witness for the amended C1 theorem at a concrete malformed token. -/
theorem login_malformed_amended_witness :
    login decodeEx "bad" ⟨some "tok.alice.9", ⟨some "alice"⟩⟩
      = (⟨some "bad", ⟨some "alice"⟩⟩, [], .error .malformed) :=
  login_malformed_amended decodeEx "bad" ⟨some "tok.alice.9", ⟨some "alice"⟩⟩
    (by decide)

/-! Claim C2 — validate on an undecodable stored credential. -/

/-- Claim C2 is false on the code: with the undecodable string "bad" in
the store and a live session for "alice", `validateAuth` raises the decode
error to its caller (the promise rejects), the stored credential is NOT
removed, and the Session is NOT reset — there is no try/catch around
`jwtDecode`, so no self-healing purge happens. -/
theorem validate_malformed_cex :
    (validateAuth decodeEx 0 ⟨some "bad", ⟨some "alice"⟩⟩).2.2
        = .error .malformed ∧
    (validateAuth decodeEx 0 ⟨some "bad", ⟨some "alice"⟩⟩).1.storedJwt
        = some "bad" ∧
    (validateAuth decodeEx 0 ⟨some "bad", ⟨some "alice"⟩⟩).1.user.userID
        = some "alice" :=
  ⟨rfl, rfl, rfl⟩

/-- Claim C2 amended: in neither undecodable case does the claimed
self-healing purge happen.  A stored empty string is falsy under the
code's `if (jwt)` guard, so `validateAuth` resolves `false` without
decoding, purging or notifying; every other stored credential the codec
cannot decode makes `validateAuth` propagate the decode error to its
caller with no purge: the stored credential remains in the store, the
Session is unchanged, and no subscriber is notified. -/
theorem validate_malformed_amended :
    (∀ (decode : Codec) (now : Nat) (u : User),
      validateAuth decode now ⟨some "", u⟩ = (⟨some "", u⟩, [], .ok false)) ∧
    (∀ (decode : Codec) (now : Nat) (u : User) (jwt : String),
      jwt ≠ "" → decode jwt = none →
      validateAuth decode now ⟨some jwt, u⟩
        = (⟨some jwt, u⟩, [], .error .malformed)) :=
  ⟨fun decode now u => validateAuth_falsy decode now u,
   fun decode now u jwt hne h => validateAuth_malformed decode now u jwt h hne⟩

/-- Witness for the amended C2 theorem at a concrete corrupted store. -/
theorem validate_malformed_amended_witness :
    validateAuth decodeEx 0 ⟨some "bad", ⟨some "alice"⟩⟩
      = (⟨some "bad", ⟨some "alice"⟩⟩, [], .error .malformed) :=
  validate_malformed_amended.2 decodeEx 0 ⟨some "alice"⟩ "bad" (by decide)
    (by decide)

/-! Claim C3 — replacing a visible notification before auto-dismiss. -/

set_option maxRecDepth 100000

/-- Claim C3 is false on the code: in the spec's own scenario
(`show("A","info",100)` at t = 0, `show("B","error",200)` at t = 50) the
`useEffect` dependency array is `[show]`, and `show` stays `true` across
the replacement, so the effect does not re-run: the first timer is not
cancelled and no second timer is scheduled.  The stale timer fires at
t = 100 (the original d1 mark), hiding the notification while it is
showing the new message "B" — it is not still visible there as the claim
requires, and the single hide happens at the first deadline, not d2 after
the replacement. -/
theorem toast_replace_cex :
    (runNotif replaceEvents 100).visible = false ∧
    (runNotif replaceEvents 100).message = "B" ∧
    (runNotif replaceEvents 100).hideEvents = 1 := by
  decide

/-- Claim C3 amended: replacing a visible notification without toggling
`show` does not cancel or reschedule the pending auto-dismiss.  In the
scenario the replacement does swap the message (at t = 99 the toast is
visible showing "B"), the stale timer fires at the original deadline
t = 100 hiding the new notification, and exactly one hide transition
occurs over the whole run — none at the replacement-relative deadline
t = 250. -/
theorem toast_replace_amended :
    (runNotif replaceEvents 99).visible = true ∧
    (runNotif replaceEvents 99).message = "B" ∧
    (runNotif replaceEvents 100).visible = false ∧
    (runNotif replaceEvents 100).hideEvents = 1 ∧
    (runNotif replaceEvents 300).hideEvents = 1 ∧
    (runNotif replaceEvents 300).visible = false := by
  decide

/-! Claim C4 — aria-live politeness by severity. -/

/-- Claim C4 names a real code bug: the attribute is written
`colour === "error" || "warning" ? "assertive" : "polite"`, whose
condition parses as `(colour === "error") || "warning"` — the non-empty
string "warning" is always truthy, so every severity is announced
assertively.  For severities success and info the code renders
`aria-live="assertive"` where the documented contract requires "polite". -/
theorem ariaLive_always_assertive :
    ariaLive "success" = "assertive" ∧
    ariaLive "info" = "assertive" ∧
    ariaLive "error" = "assertive" ∧
    ariaLive "warning" = "assertive" ∧
    ariaLive "success" ≠ ariaLiveSpec "success" ∧
    ariaLive "info" ≠ ariaLiveSpec "info" := by
  decide

/-! Claim C5 — login then validate on a fresh decodable credential. -/

/-- Claim C5: for every decodable raw credential whose decoded expiry is
strictly in the future at the time of the check, `login(c)` followed by
`validate()` leaves the Session's subject equal to `decode(c).subject`,
and `validate` resolves `true` (caller authenticated). -/
theorem login_validate_roundtrip (decode : Codec) (jwt : String) (tk : Claims)
    (s : AuthState) (now : Nat) (h1 : decode jwt = some tk)
    (h2 : tk.exp * 1000 > now) :
    (validateAuth decode now (login decode jwt s).1).1.user.userID
        = some tk.sub ∧
    (validateAuth decode now (login decode jwt s).1).2.2 = .ok true := by
  have hne : jwt ≠ "" := decodable_ne_empty decode jwt tk h1
  simp [login, validateAuth, h1, h2, hne]

/-- Witness for C5: the "alice" token (expiry 9 s, i.e. 9000 ms) checked
at now = 0 from an empty initial state. -/
theorem login_validate_roundtrip_witness :
    (validateAuth decodeEx 0 (login decodeEx "tok.alice.9" ⟨none, ⟨none⟩⟩).1).1.user.userID
        = some "alice" ∧
    (validateAuth decodeEx 0 (login decodeEx "tok.alice.9" ⟨none, ⟨none⟩⟩).1).2.2
        = .ok true :=
  login_validate_roundtrip decodeEx "tok.alice.9" ⟨9, "alice"⟩ ⟨none, ⟨none⟩⟩ 0
    (by decide) (by decide)

/-! Claim C6 — validate on a stored expired credential. -/

/-- Claim C6: for every decodable stored credential whose decoded expiry
is at or before the clock reading, `validate()` returns the logged-out
result with `subjectId = null`, and afterwards the store is empty — so in
the post-state no stored-but-expired credential coexists with a non-null
Session. -/
theorem validate_expired_purges (decode : Codec) (jwt : String) (tk : Claims)
    (u : User) (now : Nat) (h1 : decode jwt = some tk)
    (h2 : tk.exp * 1000 ≤ now) :
    validateAuth decode now ⟨some jwt, u⟩ = (⟨none, ⟨none⟩⟩, [⟨none⟩], .ok false) :=
  validateAuth_expired decode now u jwt tk h1 h2

/-- Witness for C6: the "bob" token (expiry 1 s = 1000 ms) checked at
now = 2000 ms, seeded alongside a stale live session. -/
theorem validate_expired_purges_witness :
    validateAuth decodeEx 2000 ⟨some "tok.bob.1", ⟨some "alice"⟩⟩
      = (⟨none, ⟨none⟩⟩, [⟨none⟩], .ok false) :=
  validate_expired_purges decodeEx "tok.bob.1" ⟨1, "bob"⟩ ⟨some "alice"⟩ 2000
    (by decide) (by decide)

/-! Claim C7 — logout idempotence. -/

/-- Claim C7: from any state, `logout` twice yields the same store
contents and the same null Session as `logout` once, and the second call
cannot fail (`logout` is a total function of the state). -/
theorem logout_idempotent (s : AuthState) :
    logout (logout s).1 = logout s ∧ (logout s).1 = ⟨none, ⟨none⟩⟩ := by
  simp [logout]

/-! Claim C8 — the Route Guard's one-shot resolution. -/

/-- Claim C8 is false on the code as universally stated: a mount over a
store holding an undecodable string never transitions at all.
`validateAuth` rejects, the `await` inside `checkAuth` throws before
`setAuthState` is reached, and the guard stays on the pending spinner
forever — it never reaches `Authorized` or `Unauthorized`. -/
theorem routeGuard_stuck_cex :
    guardTrace decodeEx 0 ⟨some "garbage", ⟨none⟩⟩ = [GuardState.pending] ∧
    GuardState.authorized ∉ guardTrace decodeEx 0 ⟨some "garbage", ⟨none⟩⟩ ∧
    GuardState.unauthorized ∉ guardTrace decodeEx 0 ⟨some "garbage", ⟨none⟩⟩ := by
  decide

/-- Claim C8 amended: every mount starts at `Pending` and transitions AT
MOST once, never re-entering `Pending`; with an empty store it resolves to
`Unauthorized` (never `Authorized`); with a stored decodable fresh
credential it resolves to `Authorized`; and whenever the store is empty or
its content is decodable the transition happens exactly once — only an
undecodable stored credential leaves the guard pending forever. -/
theorem routeGuard_amended (decode : Codec) (now : Nat) (s : AuthState) :
    (guardTrace decode now s).head? = some GuardState.pending ∧
    (guardTrace decode now s).length ≤ 2 ∧
    GuardState.pending ∉ (guardTrace decode now s).tail ∧
    (s.storedJwt = none →
      guardTrace decode now s = [GuardState.pending, GuardState.unauthorized]) ∧
    (∀ jwt tk, s.storedJwt = some jwt → decode jwt = some tk →
      tk.exp * 1000 > now →
      guardTrace decode now s = [GuardState.pending, GuardState.authorized]) ∧
    ((s.storedJwt = none ∨
        ∃ jwt tk, s.storedJwt = some jwt ∧ decode jwt = some tk) →
      (guardTrace decode now s).length = 2) := by
  obtain ⟨stored, u⟩ := s
  cases stored with
  | none =>
      have hg : guardTrace decode now ⟨none, u⟩
          = [GuardState.pending, GuardState.unauthorized] := by
        simp [guardTrace, validateAuth_empty]
      refine ⟨by simp [hg], by simp [hg], by simp [hg], fun _ => hg, ?_,
        fun _ => by simp [hg]⟩
      intro jwt tk h _ _
      exact absurd h (by simp)
  | some jwt =>
      by_cases hjwt : jwt = ""
      · subst hjwt
        have hg : guardTrace decode now ⟨some "", u⟩
            = [GuardState.pending, GuardState.unauthorized] := by
          simp [guardTrace, validateAuth_falsy]
        refine ⟨by simp [hg], by simp [hg], by simp [hg], ?_, ?_,
          fun _ => by simp [hg]⟩
        · intro h
          exact absurd h (by simp)
        · intro jwt1 tk h1 h2 _
          injection h1 with h1
          subst h1
          rw [decode.empty_undecodable] at h2
          exact Option.noConfusion h2
      · cases hd : decode jwt with
        | none =>
            have hg : guardTrace decode now ⟨some jwt, u⟩ = [GuardState.pending] := by
              simp [guardTrace, validateAuth_malformed decode now u jwt hd hjwt]
            refine ⟨by simp [hg], by simp [hg], by simp [hg], ?_, ?_, ?_⟩
            · intro h
              exact absurd h (by simp)
            · intro jwt1 tk h1 h2 _
              injection h1 with h1
              subst h1
              rw [hd] at h2
              exact Option.noConfusion h2
            · intro h
              rcases h with h | ⟨jwt1, tk, h1, h2⟩
              · exact absurd h (by simp)
              · injection h1 with h1
                subst h1
                rw [hd] at h2
                exact Option.noConfusion h2
        | some tk =>
            by_cases hexp : tk.exp * 1000 > now
            · have hg : guardTrace decode now ⟨some jwt, u⟩
                  = [GuardState.pending, GuardState.authorized] := by
                simp [guardTrace, validateAuth_fresh decode now u jwt tk hd hexp]
              refine ⟨by simp [hg], by simp [hg], by simp [hg], ?_,
                fun _ _ _ _ _ => hg, fun _ => by simp [hg]⟩
              intro h
              exact absurd h (by simp)
            · have hle : tk.exp * 1000 ≤ now := Nat.not_lt.mp hexp
              have hg : guardTrace decode now ⟨some jwt, u⟩
                  = [GuardState.pending, GuardState.unauthorized] := by
                simp [guardTrace, validateAuth_expired decode now u jwt tk hd hle]
              refine ⟨by simp [hg], by simp [hg], by simp [hg], ?_, ?_,
                fun _ => by simp [hg]⟩
              · intro h
                exact absurd h (by simp)
              · intro jwt1 tk1 h1 h2 h3
                injection h1 with h1
                subst h1
                rw [hd] at h2
                injection h2 with h2
                subst h2
                exact absurd h3 hexp

/-- Witness for the amended C8 theorem: a mount over an empty store
resolves to exactly `[pending, unauthorized]`. -/
theorem routeGuard_amended_witness :
    guardTrace decodeEx 1000 ⟨none, ⟨none⟩⟩
      = [GuardState.pending, GuardState.unauthorized] :=
  (routeGuard_amended decodeEx 1000 ⟨none, ⟨none⟩⟩).2.2.2.1 rfl

/-! Claim C9 — subscriber notifications. -/

/-- Claim C9 is false on the code: with the fresh "alice" token stored and
the Session already holding "alice", `validateAuth` reaffirms the
unchanged state (the post-state equals the pre-state) yet still calls
`setUser` with a freshly built object, notifying subscribers once where
the claim requires zero notifications. -/
theorem validate_reaffirm_notifies_cex :
    (validateAuth decodeEx 0 ⟨some "tok.alice.9", ⟨some "alice"⟩⟩).1
        = ⟨some "tok.alice.9", ⟨some "alice"⟩⟩ ∧
    (validateAuth decodeEx 0 ⟨some "tok.alice.9", ⟨some "alice"⟩⟩).2.1
        = [⟨some "alice"⟩] ∧
    (validateAuth decodeEx 0 ⟨some "tok.alice.9", ⟨some "alice"⟩⟩).2.1 ≠ [] := by
  decide

/-- Claim C9 amended: a successful `login` notifies exactly once, `logout`
notifies exactly once, a `validate` over an empty store notifies zero
times, and a `validate` over any decodable stored credential notifies
exactly once — including a `validate` that merely reaffirms the
already-current Session, because `setUser` is called unconditionally with
a fresh object on the valid path (subscribers are not insulated from
redundant notifications). -/
theorem notify_amended :
    (∀ (decode : Codec) (jwt : String) (tk : Claims) (s : AuthState),
      decode jwt = some tk → (login decode jwt s).2.1.length = 1) ∧
    (∀ s : AuthState, (logout s).2.length = 1) ∧
    (∀ (decode : Codec) (now : Nat) (u : User),
      (validateAuth decode now ⟨none, u⟩).2.1.length = 0) ∧
    (∀ (decode : Codec) (now : Nat) (u : User) (jwt : String) (tk : Claims),
      decode jwt = some tk →
      (validateAuth decode now ⟨some jwt, u⟩).2.1.length = 1) := by
  refine ⟨?_, ?_, ?_, ?_⟩
  · intro decode jwt tk s h
    simp [login, h]
  · intro s
    simp [logout]
  · intro decode now u
    simp [validateAuth_empty]
  · intro decode now u jwt tk h
    by_cases hexp : tk.exp * 1000 > now
    · simp [validateAuth_fresh decode now u jwt tk h hexp]
    · simp [validateAuth_expired decode now u jwt tk h (Nat.not_lt.mp hexp)]

/-- Witness for the amended C9 theorem: the reaffirming `validate` of the
counterexample state notifies exactly once. -/
theorem notify_amended_witness :
    (validateAuth decodeEx 0 ⟨some "tok.alice.9", ⟨some "alice"⟩⟩).2.1.length = 1 :=
  notify_amended.2.2.2 decodeEx 0 ⟨some "alice"⟩ "tok.alice.9" ⟨9, "alice"⟩
    (by decide)

/-! Claim C10 — validate on an empty store is a pure read. -/

/-- Claim C10: when the persistent store is empty, `validateAuth` resolves
`false` (unauthenticated) while performing no write at all: the store and
the in-memory Session are returned exactly as they were and no subscriber
is notified — in particular a stale non-null `userID` survives the call
untouched. -/
theorem validate_empty_frame (decode : Codec) (now : Nat) (u : User) :
    validateAuth decode now ⟨none, u⟩ = (⟨none, u⟩, [], .ok false) :=
  validateAuth_empty decode now u

end DiscordPython
